import Mathlib

/-!
Shallow embedding of the custodial-ledger service (FastAPI app under `app/`):
the balance computation (`app/utils/balance.py`), the withdraw endpoint and the
deposit-processing endpoint (`app/main.py`), the wallet transfer builders
(`app/utils/wallet.py`), the receipt reconciler (`app/utils/receipt_processor.py`)
and the ERC20 transfer extraction (`app/utils/transaction_detector.py`).

Amounts are stored as integer-valued strings in the database; row fields are
modelled as `Int`, and the places where the string typing of the columns, or
an invalid constructor keyword, or an invalid `to_checksum_address` argument
makes the source raise instead of computing are modelled as explicit error
outcomes or skipped branches, not as numeric results.  Database rows are
lists of structures; `filter_by(...).first()` is `List.find?`, and string
comparisons are exact (case-sensitive), as in the store.  Python object
identity (used by `list.remove` on ORM objects) is modelled by the unique
`id` column.  External effects (chain RPC, uuid4, key derivation) are inputs:
the wallet's broadcast hash, derived checksummed sender address and suggested
gas price arrive in a `WalletEnv`, receipt lookups arrive as a
`ReceiptFetch`, and the transfer detector's output arrives as an
`Option TransactionResult` (`none` models `detect_transaction` returning
`None` after catching `TransactionNotFound`).
-/

/-- `app/constants.py`: `NetworkType = Literal['mainnet', 'sepolia']`. -/
inductive NetworkType
  | mainnet
  | sepolia
deriving Repr, DecidableEq

/-- `app/constants.py`: `NETWORKS[network].chain_id`. -/
def chainId : NetworkType → Nat
  | .mainnet => 1
  | .sepolia => 11155111

/-- `app/constants.py`: `TokenType = Literal['ETH', 'USDC']`. -/
inductive Token
  | ETH
  | USDC
deriving Repr, DecidableEq

/-- The string value of a `TokenType` literal. -/
def Token.str : Token → String
  | .ETH => "ETH"
  | .USDC => "USDC"

/-- ASCII lowercasing of one character, as Python's `str.lower` does on the
hex strings involved here. -/
def lowerChar (c : Char) : Char :=
  if 'A' ≤ c && c ≤ 'Z' then Char.ofNat (c.toNat + 32) else c

/-- Python's `str.lower` on the ASCII strings involved here. -/
def strLower (s : String) : String := ⟨s.data.map lowerChar⟩

/-- Python's slice `s[n:]`. -/
def strDrop (s : String) (n : Nat) : String := ⟨s.data.drop n⟩

/-- The value of one hex digit (decimal digits, then the lowercase and the
uppercase letter ranges by code point), `none` on any other character. -/
def hexDigitVal? (c : Char) : Option Nat :=
  let n := c.toNat
  if 48 ≤ n ∧ n ≤ 57 then some (n - 48)
  else if 97 ≤ n ∧ n ≤ 102 then some (n - 87)
  else if 65 ≤ n ∧ n ≤ 70 then some (n - 55)
  else none

/-- `app/models.py` `Address`: a managed address row. -/
structure AddressRow where
  address : String
  index : Nat
deriving Repr, DecidableEq

/-- `app/models.py` `Balance`: one row per (address, chain_id, token);
`balance` is an integer-valued string column, modelled as `Int`. -/
structure BalanceRow where
  address : String
  chain_id : Nat
  token : String
  balance : Int
deriving Repr, DecidableEq

/-- `app/models.py` `Transaction`: a ledger transaction row.  `id` is the
uuid primary key (modelled as `Nat`), and also stands for Python object
identity in the reconciler's in-memory working set.  `status` defaults to
`"pending"` when a row is created without passing it. -/
structure Txn where
  id : Nat
  hash : String
  from_address : Option String
  to_address : Option String
  amount : Int
  chain_id : Nat
  token : String
  status : String
  gas_used : Option Int
  gas_price : Option Int
  fee : Option Int
deriving Repr, DecidableEq

/-- `app/models.py` `ProcessedTransaction`: the idempotency marker,
keyed by (hash, chain_id). -/
structure Marker where
  hash : String
  chain_id : Nat
deriving Repr, DecidableEq

/-- The relational store. -/
structure DB where
  addresses : List AddressRow
  balances : List BalanceRow
  transactions : List Txn
  processed : List Marker
deriving Repr, DecidableEq

/-- `app/utils/balance.py` `get_balance`: the confirmed `Balance` row for
(address, token, chain_id), then a loop
`total_balance += amount + (fee or 0)` over every `Transaction` row with this
exact `from_address` string, token, chain_id and status `'pending'`.
`Transaction.amount` and `Transaction.fee` are `String` columns, so on the
first matching pending row the loop adds a string into the integer
accumulator and raises `TypeError` (modelled as `none`); with no matching
pending row the function returns the confirmed balance (0 without a row).
The pending filter is case-sensitive, and the rows the withdraw path creates
carry the checksummed (mixed-case) sender, so they never match the stored
lowercase address. -/
def get_balance (db : DB) (address : String) (network : NetworkType)
    (token : String) : Option Int :=
  let cid := chainId network
  let bal := db.balances.find? fun b =>
    b.address == address && b.token == token && b.chain_id == cid
  let pending := db.transactions.filter fun t =>
    t.from_address == some address && t.token == token &&
      t.chain_id == cid && t.status == "pending"
  match pending with
  | [] =>
    some
      (match bal with
       | some b => b.balance
       | none => 0)
  | _ :: _ => none

/-- External inputs to `Wallet` (`app/utils/wallet.py`): the derived sender
address as `to_checksum_address` returns it — a mixed-case string, distinct
from the lowercase form the address table stores — the scaled gas price, the
hash returned by `send_raw_transaction`, and the uuid of the created row. -/
structure WalletEnv where
  from_address : String
  gas_price : Int
  tx_hash : String
  tx_id : Nat
deriving Repr, DecidableEq

namespace Wallet

/-- `Wallet._transfer_eth`: gas fixed at 21000, token `'ETH'`,
fee = gas_used * gas_price, status `'pending'`. -/
def transfer_eth (w : WalletEnv) (network : NetworkType) (to_address : String)
    (amount : Int) : Txn :=
  { id := w.tx_id
    hash := w.tx_hash
    from_address := some w.from_address
    to_address := some to_address
    amount := amount
    chain_id := chainId network
    token := "ETH"
    status := "pending"
    gas_used := some 21000
    gas_price := some w.gas_price
    fee := some (21000 * w.gas_price) }

/-- `Wallet._transfer_usdc`: gas fixed at 65000, fee = gas_used * gas_price,
status `'pending'`.  The source constructs the row with `token='ETH'`. -/
def transfer_usdc (w : WalletEnv) (network : NetworkType) (to_address : String)
    (amount : Int) : Txn :=
  { id := w.tx_id
    hash := w.tx_hash
    from_address := some w.from_address
    to_address := some to_address
    amount := amount
    chain_id := chainId network
    token := "ETH"
    status := "pending"
    gas_used := some 65000
    gas_price := some w.gas_price
    fee := some (65000 * w.gas_price) }

/-- `Wallet.transfer`: dispatch on the token literal. -/
def transfer (w : WalletEnv) (network : NetworkType) (token : Token)
    (to_address : String) (amount : Int) : Txn :=
  match token with
  | .ETH => transfer_eth w network to_address amount
  | .USDC => transfer_usdc w network to_address amount

/-- Both transfer paths return the chain hash handed back by
`send_raw_transaction`. -/
lemma transfer_hash (w : WalletEnv) (network : NetworkType) (token : Token)
    (to_address : String) (amount : Int) :
    (transfer w network token to_address amount).hash = w.tx_hash := by
  cases token <;> rfl

/-- Both transfer paths use the freshly created row identity. -/
lemma transfer_id (w : WalletEnv) (network : NetworkType) (token : Token)
    (to_address : String) (amount : Int) :
    (transfer w network token to_address amount).id = w.tx_id := by
  cases token <;> rfl

end Wallet

/-- `app/schemas.py` `WithdrawRequest` (the fields the handler reads). -/
structure WithdrawReq where
  from_address : String
  to_address : String
  amount : Int
  token : Token
deriving Repr, DecidableEq

/-- Outcome of the withdraw endpoint: the three `HTTPException` kinds raised
by the handler, the unhandled `TypeError` out of `get_balance` (HTTP 500,
only possible when a pending row matches the queried address string), or
success carrying the persisted transaction. -/
inductive WithdrawResult
  | notFound
  | invalidAmount
  | insufficientFunds
  | typeError
  | ok (tx : Txn)
deriving Repr, DecidableEq

/-- Service state: the store plus the receipt reconciler's in-memory working
set `pending_transactions` (transactions by object identity, i.e. by `id`). -/
structure Sys where
  db : DB
  workingSet : List Nat
deriving Repr, DecidableEq

/-- `app/main.py` `withdraw`: look up the `Address` row (404 if absent),
reject `amount <= 0` (400), evaluate `get_balance` (whose `TypeError`, were a
pending row ever to match, would escape as a 500), reject a balance below the
amount (400); otherwise broadcast via `Wallet.transfer`, persist the
transaction row and a `ProcessedTransaction(hash=tx.hash)` marker, and append
the transaction to the reconciler's working set.  No balance row is touched
here. -/
def withdraw (s : Sys) (req : WithdrawReq) (network : NetworkType)
    (w : WalletEnv) : Sys × WithdrawResult :=
  match s.db.addresses.find? (fun a => a.address == req.from_address) with
  | none => (s, .notFound)
  | some _ =>
    if req.amount ≤ 0 then
      (s, .invalidAmount)
    else
      match get_balance s.db req.from_address network req.token.str with
      | none => (s, .typeError)
      | some bal =>
        if bal < req.amount then
          (s, .insufficientFunds)
        else
          let tx := Wallet.transfer w network req.token req.to_address
            req.amount
          ({ db :=
              { s.db with
                transactions := s.db.transactions ++ [tx]
                processed := s.db.processed ++ [⟨tx.hash, chainId network⟩] }
             workingSet := s.workingSet ++ [tx.id] },
           .ok tx)

/-- `app/schemas.py` `EthTransfer` as used by the detector and handler. -/
structure EthTransfer where
  amount : Int
  from_address : String
  to_address : String
deriving Repr, DecidableEq

/-- `app/schemas.py` `Erc20Transfer` as constructed by
`TransactionDetector._parse_transfer_event`. -/
structure Erc20Transfer where
  amount : Int
  from_address : String
  to_address : String
  token_address : String
deriving Repr, DecidableEq

/-- The detector output consumed by the `/process-transaction` handler:
`result.eth_transfer`, `result.usdc_transfer`, `result.transaction_type`. -/
structure TransactionResult where
  eth_transfer : List EthTransfer
  usdc_transfer : List Erc20Transfer
  transaction_type : List String
deriving Repr, DecidableEq

/-- An element of `all_transfers = result.eth_transfer + result.usdc_transfer`;
the handler recovers the token with `isinstance(transfer, EthTransfer)`. -/
inductive Transfer
  | eth (t : EthTransfer)
  | usdc (t : Erc20Transfer)
deriving Repr, DecidableEq

def Transfer.to_address : Transfer → String
  | .eth t => t.to_address
  | .usdc t => t.to_address

/-- `app/schemas.py` `Deposit`. -/
structure Deposit where
  address : String
  amount : Int
  token : String
deriving Repr, DecidableEq

/-- Outcome of the `/process-transaction` handler.  `conflict` is the 409 for
an existing marker; `internalError` is the unhandled failure (HTTP 500) when
the detector produced no result; `typeError` is the unhandled `TypeError`
(HTTP 500) raised by `Transaction(..., to_addresses=...)` at `main.py:213` —
`to_addresses` is not a column of the model, so the declarative constructor
rejects it on the first transfer whose destination is managed;
`notFoundErr` is the 404 kind of the error taxonomy, listed here because the
claims compare against it — this handler never produces it. -/
inductive ProcessResult
  | conflict
  | internalError
  | typeError
  | notFoundErr
  | ok (deposits : List Deposit)
deriving Repr, DecidableEq

/-- `app/main.py` `process_transaction`: reject with 409 if a
`ProcessedTransaction` with this hash exists (the source filters by hash
only); run the detector — a `None` result crashes the handler (HTTP 500), as
the repository's own test for an unlocatable hash asserts; with no
`ETH_TRANSFER`/`USDC_TRANSFER` type, write the marker and return no deposits.
Otherwise the crediting loop runs over
`all_transfers = result.eth_transfer + result.usdc_transfer`: a transfer
whose lowercased destination is unmanaged is skipped, but the first transfer
whose destination is managed reaches `Transaction(..., to_addresses=...)`,
whose invalid keyword raises `TypeError` before any row, balance or marker is
written — so with at least one managed destination the handler fails with a
500 and the store is untouched, and with none it writes only the marker.
`idn` models the fresh uuids the loop would use. -/
def process_transaction (db : DB) (h : String) (network : NetworkType)
    (det : Option TransactionResult) (idn : Nat) : DB × ProcessResult :=
  if db.processed.any (fun m => m.hash == h) then
    (db, .conflict)
  else
    match det with
    | none => (db, .internalError)
    | some result =>
      if !result.transaction_type.contains "ETH_TRANSFER" &&
          !result.transaction_type.contains "USDC_TRANSFER" then
        ({ db with processed := db.processed ++ [⟨h, chainId network⟩] },
         .ok [])
      else
        let all_transfers :=
          result.eth_transfer.map Transfer.eth ++
            result.usdc_transfer.map Transfer.usdc
        if all_transfers.any (fun tr =>
            db.addresses.any
              (fun a => a.address == strLower tr.to_address)) then
          (db, .typeError)
        else
          ({ db with processed := db.processed ++ [⟨h, chainId network⟩] },
           .ok [])

/-- Result of `w3.eth.get_transaction_receipt` for a submitted transaction:
either a receipt with its integer status field, or the
`TransactionNotFound` exception. -/
inductive ReceiptFetch
  | found (st : Int)
  | notFound
deriving Repr, DecidableEq

/-- The value shapes `eth_utils.to_checksum_address` accepts: a 20-byte hex
address, `0x` followed by 40 hex digits.  Anything else — in particular every
32-byte transaction hash — makes it raise `ValueError`. -/
def is_hex_address (s : String) : Bool :=
  s.data.length == 42 && s.data.take 2 == ['0', 'x'] &&
    (s.data.drop 2).all (fun c => (hexDigitVal? c).isSome)

namespace ReceiptProcessor

/-- `ReceiptProcessor._update_transaction`: set the transaction's status and
`list.remove` it from the in-memory working set — removal of the first
occurrence of that object (identified by `id`). -/
def update_transaction (s : Sys) (t : Txn) (st : String) : Sys :=
  { db :=
      { s.db with
        transactions := s.db.transactions.map fun u =>
          if u.id == t.id then { u with status := st } else u }
    workingSet := s.workingSet.erase t.id }

/-- `ReceiptProcessor._update_balance`: look up the `Balance` row by
`filter_by(address=transaction.to_address, chain_id=..., token=...)`;
`assert balance is not None` and `assert transaction.fee is not None` —
modelled by `none` on assertion failure — then subtract
`amount + fee` from that row. -/
def update_balance (s : Sys) (t : Txn) : Option Sys :=
  match s.db.balances.find? (fun b =>
      some b.address == t.to_address && b.chain_id == t.chain_id &&
        b.token == t.token) with
  | none => none
  | some _ =>
    match t.fee with
    | none => none
    | some f =>
      let spent := t.amount + f
      some
        { s with
          db :=
            { s.db with
              balances := s.db.balances.map fun b =>
                if some b.address == t.to_address &&
                    b.chain_id == t.chain_id && b.token == t.token then
                  { b with balance := b.balance - spent }
                else b } }

/-- `ReceiptProcessor._process_transaction`, one reconciliation step for one
transaction of the working set: first `self.pending_transactions.append(...)`
(the source appends the transaction again at entry), then the receipt lookup
`get_transaction_receipt(to_checksum_address(transaction.hash))`.
`to_checksum_address` is evaluated first and raises `ValueError` for every
transaction hash (a 32-byte value, never an address); the `except` clause
catches only `TransactionNotFound`, so the exception escapes to the tick
loop and the step ends after the entry append — the status update, working
set removal and balance debit below it are unreachable for real hashes.  For
an address-shaped hash: `TransactionNotFound` is caught and only logged, a
receipt with status ≠ 1 moves the transaction to `failed`, and status 1
moves it to `confirmed` and updates the balance inside `db.begin()` — if the
balance assertions fail, the store writes roll back while the in-memory
working-set removal persists. -/
def process_transaction (s : Sys) (t : Txn) (f : ReceiptFetch) : Sys :=
  let s1 := { s with workingSet := s.workingSet ++ [t.id] }
  if is_hex_address t.hash then
    match f with
    | .notFound => s1
    | .found st =>
      if st ≠ 1 then
        update_transaction s1 t "failed"
      else
        let s2 := update_transaction s1 t "confirmed"
        match update_balance s2 t with
        | some s3 => s3
        | none => { db := s1.db, workingSet := s2.workingSet }
  else
    s1

end ReceiptProcessor

/-- A receipt log entry as read by the detector: the emitting contract
address, the topic list and the data field, each already rendered as the
0x-prefixed hex string the source obtains via `.hex()`. -/
structure LogEntry where
  address : String
  topics : List String
  dataHex : String
deriving Repr, DecidableEq

namespace TransactionDetector

/-- `app/utils/transaction_detector.py`: keccak of
`Transfer(address,address,uint256)` as a 0x-prefixed hex string. -/
def TRANSFER_EVENT_SIG : String :=
  "0xddf252ad1be2c89b69c2b068fc378daa952ba7f163c4a11628f55a4df523b3ef"

/-- `MIN_TRANSFER_EVENT_TOPICS = 3`. -/
def MIN_TRANSFER_EVENT_TOPICS : Nat := 3

/-- `ADDRESS_PADDING_START = 26`. -/
def ADDRESS_PADDING_START : Nat := 26

/-- Accumulating hex parse over a digit list. -/
def parseHexCore : List Char → Nat → Option Nat
  | [], acc => some acc
  | c :: cs, acc =>
    match hexDigitVal? c with
    | some d => parseHexCore cs (16 * acc + d)
    | none => none

/-- `int(s, 16)` on the strings `.hex()` yields: an optional `0x` prefix
followed by at least one hex digit; anything else raises `ValueError`,
modelled as `none` (so `int('0x', 16)` on empty data fails). -/
def parseHexInt? (s : String) : Option Nat :=
  let cs := if s.data.take 2 = ['0', 'x'] then s.data.drop 2 else s.data
  match cs with
  | [] => none
  | _ => parseHexCore cs 0

/-- `TransactionDetector._is_transfer_event`:
`len(log['topics']) >= 3 and log['topics'][0] == TRANSFER_EVENT_SIGNATURE`. -/
def is_transfer_event (log : LogEntry) : Bool :=
  decide (MIN_TRANSFER_EVENT_TOPICS ≤ log.topics.length) &&
    log.topics.head? == some TRANSFER_EVENT_SIG

/-- `TransactionDetector._parse_transfer_event`: addresses are the topic hex
strings with the first 26 characters dropped, re-prefixed with `0x`; the
amount is `int(log['data'].hex(), 16)`.  `ValueError`/`IndexError`/`KeyError`
inside the `try` block yield `None`. -/
def parse_transfer_event (log : LogEntry) : Option Erc20Transfer :=
  match log.topics.get? 1, log.topics.get? 2 with
  | some t1, some t2 =>
    match parseHexInt? log.dataHex with
    | some v =>
      some
        { amount := (v : Int)
          from_address := "0x" ++ strDrop t1 ADDRESS_PADDING_START
          to_address := "0x" ++ strDrop t2 ADDRESS_PADDING_START
          token_address := log.address }
    | none => none
  | _, _ => none

/-- Accumulator of `_process_erc20_transfers` on the shared result object. -/
structure Erc20Acc where
  usdc_transfer : List Erc20Transfer
  transaction_type : List String
deriving Repr, DecidableEq

/-- One log entry of the `_process_erc20_transfers` loop: parse only entries
passing `_is_transfer_event`; a `None` parse is skipped; a parsed transfer is
kept only when the emitting contract is the configured USDC address, also
recording the `USDC_TRANSFER` type once. -/
def process_erc20_log (usdc_address : String) (r : Erc20Acc)
    (log : LogEntry) : Erc20Acc :=
  if is_transfer_event log then
    match parse_transfer_event log with
    | some tr =>
      if strLower log.address == usdc_address then
        { usdc_transfer := r.usdc_transfer ++ [tr]
          transaction_type :=
            if r.transaction_type.contains "USDC_TRANSFER" then
              r.transaction_type
            else r.transaction_type ++ ["USDC_TRANSFER"] }
      else r
    | none => r
  else r

/-- `TransactionDetector._process_erc20_transfers`: the loop over
`tx_receipt['logs']`. -/
def process_erc20_transfers (usdc_address : String) (logs : List LogEntry)
    (r : Erc20Acc) : Erc20Acc :=
  logs.foldl (process_erc20_log usdc_address) r

end TransactionDetector

/-! Concrete states used to evaluate the code.  The two managed addresses are
the ones the repository's test suite derives from its mnemonic. -/

/-- First managed address. -/
def addrA : String := "0xf39b278078f5488ca53b57eea65a9186d17e06e3"

/-- Second managed address. -/
def addrB : String := "0x4bb67806f3d073d5d57c2015401af5934db5a16c"

/-- An external (unmanaged) depositor address. -/
def addrC : String := "0x90f8bf6a479f320ead074411a4b0e7944ea8c9c1"

/-- A checksummed (mixed-case) rendering of `addrA`, standing for
`to_checksum_address(addrA)`.  What the claims depend on is only that the
checksummed string the wallet stores differs from the lowercase string the
address table and the balance queries use. -/
def addrAChecksum : String := "0xF39b278078f5488CA53b57EEa65A9186d17e06E3"

/-- State for the withdrawal scenario: one managed address with a confirmed
ETH balance of 100000 and nothing pending. -/
def sys1 : Sys :=
  ⟨⟨[⟨addrA, 0⟩], [⟨addrA, 11155111, "ETH", 100000⟩], [], []⟩, []⟩

/-- A withdrawal of 60 wei of ETH from `addrA` to `addrB`. -/
def req1 : WithdrawReq := ⟨addrA, addrB, 60, .ETH⟩

/-- Wallet inputs for the scenario: the checksummed sender, gas price 1 (so
the ETH-path fee is 21000 and amount + fee = 21060). -/
def w1 : WalletEnv := ⟨addrAChecksum, 1, "0xaaa1", 1⟩

/-- Wallet inputs for a second withdrawal from the same sender. -/
def w2 : WalletEnv := ⟨addrAChecksum, 1, "0xaaa3", 9⟩

/-- The pending withdrawal row of the reconciliation scenario, as the wallet
persists it: checksummed sender, amount 60, fee 21000. -/
def t2 : Txn :=
  ⟨7, "0xaaa1", some addrAChecksum, some addrB, 60, 11155111, "ETH",
    "pending", some 21000, some 1, some 21000⟩

/-- Reconciliation scenario: `t2` is pending and in the working set; the
sender holds 100000, the recipient 50000. -/
def sys2 : Sys :=
  ⟨⟨[⟨addrA, 0⟩, ⟨addrB, 1⟩],
    [⟨addrA, 11155111, "ETH", 100000⟩, ⟨addrB, 11155111, "ETH", 50000⟩],
    [t2], []⟩,
   [7]⟩

/-- Detector result for a deposit of 100000 wei from `addrC` to `addrA`. -/
def detDepositA : TransactionResult :=
  ⟨[⟨100000, addrC, addrA⟩], [], ["ETH_TRANSFER"]⟩

/-- Deposit scenario, start: two managed addresses, empty ledger. -/
def dbC4 : DB := ⟨[⟨addrA, 0⟩, ⟨addrB, 1⟩], [], [], []⟩

/-- USDC withdrawal scenario: `addrA` holds 1000000 USDC. -/
def sys8 : Sys :=
  ⟨⟨[⟨addrA, 0⟩], [⟨addrA, 11155111, "USDC", 1000000⟩], [], []⟩, []⟩

/-- A withdrawal of 500000 USDC from `addrA` to `addrB`. -/
def req8 : WithdrawReq := ⟨addrA, addrB, 500000, .USDC⟩

/-- Wallet inputs for the USDC scenario: checksummed sender. -/
def w8 : WalletEnv := ⟨addrAChecksum, 1, "0xaaa2", 2⟩

/-- C1: the spec claims submitting a withdrawal of amount `a` with fee `f`
strictly decreases `availableBalance` by `a + f`.  On the code the pending
row is persisted under the checksummed (mixed-case) sender while
`get_balance` filters pending rows by the lowercase address, case-sensitively
— so submission leaves the available balance unchanged at 100000, reserving
nothing (were a pending row ever to match, the string-typed columns would
make `get_balance` raise instead of summing).  Consequently a second
withdrawal of the full 100000 also succeeds, spending funds already
committed to the first. -/
theorem C1_withdraw_leaves_available_unchanged :
    get_balance sys1.db addrA .sepolia "ETH" = some 100000 ∧
    (withdraw sys1 req1 .sepolia w1).2 =
      .ok (Wallet.transfer w1 .sepolia .ETH addrB 60) ∧
    get_balance (withdraw sys1 req1 .sepolia w1).1.db addrA .sepolia "ETH" =
      some 100000 ∧
    (withdraw (withdraw sys1 req1 .sepolia w1).1 ⟨addrA, addrB, 100000, .ETH⟩
        .sepolia w2).2 =
      .ok (Wallet.transfer w2 .sepolia .ETH addrB 100000) := by
  decide

/-- C2: the spec claims a success receipt moves the transaction to confirmed,
removes it from the working set and debits the sender's balance by
`amount + fee`.  The code first calls `to_checksum_address` on the
transaction hash, which raises `ValueError` before the receipt is ever
fetched, so one reconciliation step performs none of this: the status stays
pending, no balance row changes, and the only net effect is the duplicate
entry appended to the working set. -/
theorem C2_reconciler_crashes_before_confirm :
    ReceiptProcessor.process_transaction sys2 t2 (.found 1) =
      { db := sys2.db, workingSet := [7, 7] } ∧
    List.map Txn.status sys2.db.transactions = ["pending"] ∧
    sys2.db.balances =
      [⟨addrA, 11155111, "ETH", 100000⟩,
       ⟨addrB, 11155111, "ETH", 50000⟩] := by
  decide

/-- C4: the spec claims `Balance.amount` equals the sum of inbound credits
minus the sum of confirmed outbound `amount + fee` and is never negative.
The code can realise neither side of that equation: crediting a deposit to a
managed address raises `TypeError` at the row constructor before any write
(the deposit fails with a 500 and no `Balance` row is ever created), and the
confirmation-time debit is unreachable because the receipt lookup raises on
every transaction hash — so stored balances never reflect any credit or any
confirmed outbound spend. -/
theorem C4_ledger_never_credits_or_debits :
    process_transaction dbC4 "0xddd1" .sepolia (some detDepositA) 100 =
      (dbC4, .typeError) ∧
    dbC4.balances = [] ∧
    (ReceiptProcessor.process_transaction sys2 t2 (.found 1)).db.balances =
      sys2.db.balances := by
  decide

/-- C7: the spec claims an absent receipt leaves the transaction pending, the
balances unchanged and the working set unchanged.  On the code the status and
balances are indeed untouched, but the step appends a duplicate entry, so the
working set grows from `[7]` to `[7, 7]`. -/
theorem C7_receipt_absent_duplicates_working_set :
    (ReceiptProcessor.process_transaction sys2 t2 .notFound).db = sys2.db ∧
    (ReceiptProcessor.process_transaction sys2 t2 .notFound).workingSet =
      [7, 7] ∧
    sys2.workingSet = [7] := by
  decide

/-- C8: the spec claims the persisted row's asset symbol equals the requested
asset on both paths.  A successful USDC withdrawal persists a row whose hash,
status, amount and sender match the request, but whose token is `"ETH"`
(`Wallet._transfer_usdc` constructs the row with `token='ETH'`). -/
theorem C8_usdc_row_token_eth :
    (withdraw sys8 req8 .sepolia w8).2 =
      .ok (Wallet.transfer w8 .sepolia .USDC addrB 500000) ∧
    (withdraw sys8 req8 .sepolia w8).1.db.transactions.map Txn.token =
      ["ETH"] ∧
    (Wallet.transfer w8 .sepolia .USDC addrB 500000).hash = "0xaaa2" ∧
    (Wallet.transfer w8 .sepolia .USDC addrB 500000).status = "pending" ∧
    (Wallet.transfer w8 .sepolia .USDC addrB 500000).amount = 500000 ∧
    (Wallet.transfer w8 .sepolia .USDC addrB 500000).token ≠ Token.USDC.str :=
  by decide

/-- With a marker for the hash already present, `process_transaction` rejects
with Conflict and changes nothing. -/
lemma processed_hash_conflict (db : DB) (h : String) (net : NetworkType)
    (det : Option TransactionResult) (idn : Nat)
    (hh : db.processed.any (fun m => m.hash == h) = true) :
    process_transaction db h net det idn = (db, .conflict) := by
  simp [process_transaction, hh]

/-- C3: the spec claims a first run on hash `h` credits the balances, writes
a `ProcessedMarker` after its credits, and that a second run fails with
Conflict.  On a hash whose detected transfer lands on a managed address the
crediting loop raises `TypeError` at the `Transaction(...)` constructor (the
`to_addresses` keyword is invalid): the first run fails with a 500, credits
nothing and writes no marker, so the second run repeats the identical 500
instead of failing Conflict — balances are credited zero times, and the
promised Conflict never occurs on such hashes. -/
theorem C3_deposit_credit_crashes_no_marker :
    process_transaction dbC4 "0xddd1" .sepolia (some detDepositA) 100 =
      (dbC4, .typeError) ∧
    process_transaction
        (process_transaction dbC4 "0xddd1" .sepolia (some detDepositA) 100).1
        "0xddd1" .sepolia (some detDepositA) 101 = (dbC4, .typeError) ∧
    ProcessResult.typeError ≠ ProcessResult.conflict := by
  decide

/-- C5: the withdraw handler checks its preconditions in order — unknown
sender address gives NotFound whatever the amount; a known sender with a
non-positive amount gives InvalidArgument whatever the balance; a known
sender, positive amount and `get_balance < amount` gives InsufficientFunds —
each failure leaving the state untouched; and only when all three pass does
it broadcast, persist the pending transaction with its marker, and hand the
transaction to the reconciler's working set. -/
theorem C5_withdraw_precondition_order (s : Sys) (req : WithdrawReq)
    (net : NetworkType) (w : WalletEnv) :
    (s.db.addresses.find? (fun a => a.address == req.from_address) = none →
      withdraw s req net w = (s, .notFound)) ∧
    (∀ a : AddressRow,
      s.db.addresses.find? (fun a => a.address == req.from_address) = some a →
      req.amount ≤ 0 → withdraw s req net w = (s, .invalidAmount)) ∧
    (∀ (a : AddressRow) (bal : Int),
      s.db.addresses.find? (fun a => a.address == req.from_address) = some a →
      0 < req.amount →
      get_balance s.db req.from_address net req.token.str = some bal →
      bal < req.amount →
      withdraw s req net w = (s, .insufficientFunds)) ∧
    (∀ (a : AddressRow) (bal : Int),
      s.db.addresses.find? (fun a => a.address == req.from_address) = some a →
      0 < req.amount →
      get_balance s.db req.from_address net req.token.str = some bal →
      req.amount ≤ bal →
      withdraw s req net w =
        ({ db :=
            { s.db with
              transactions := s.db.transactions ++
                [Wallet.transfer w net req.token req.to_address req.amount]
              processed := s.db.processed ++ [⟨w.tx_hash, chainId net⟩] }
           workingSet := s.workingSet ++ [w.tx_id] },
         .ok (Wallet.transfer w net req.token req.to_address req.amount))) := by
  refine ⟨fun h => ?_, fun a ha h => ?_, fun a bal ha h1 hbal h2 => ?_,
    fun a bal ha h1 hbal h2 => ?_⟩
  · simp [withdraw, h]
  · simp [withdraw, ha, h]
  · have hn : ¬ req.amount ≤ 0 := by omega
    simp [withdraw, ha, hn, hbal, h2]
  · have hn : ¬ req.amount ≤ 0 := by omega
    have hn2 : ¬ bal < req.amount := by omega
    simp [withdraw, ha, hn, hbal, hn2, Wallet.transfer_hash,
      Wallet.transfer_id]

/-- Witness for C5: one concrete input per branch — unknown sender, zero
amount, excessive amount, and a passing request. -/
theorem C5_withdraw_precondition_order_witness :
    withdraw sys1 ⟨addrB, addrA, 60, .ETH⟩ .sepolia w1 = (sys1, .notFound) ∧
    withdraw sys1 ⟨addrA, addrB, 0, .ETH⟩ .sepolia w1 =
      (sys1, .invalidAmount) ∧
    withdraw sys1 ⟨addrA, addrB, 200000, .ETH⟩ .sepolia w1 =
      (sys1, .insufficientFunds) ∧
    (withdraw sys1 req1 .sepolia w1).2 =
      .ok (Wallet.transfer w1 .sepolia .ETH addrB 60) := by
  refine ⟨(C5_withdraw_precondition_order sys1 ⟨addrB, addrA, 60, .ETH⟩
      .sepolia w1).1 (by decide),
    (C5_withdraw_precondition_order sys1 ⟨addrA, addrB, 0, .ETH⟩ .sepolia
      w1).2.1 ⟨addrA, 0⟩ (by decide) (by decide),
    (C5_withdraw_precondition_order sys1 ⟨addrA, addrB, 200000, .ETH⟩ .sepolia
      w1).2.2.1 ⟨addrA, 0⟩ 100000 (by decide) (by decide) (by decide)
      (by decide), ?_⟩
  rw [(C5_withdraw_precondition_order sys1 req1 .sepolia w1).2.2.2 ⟨addrA, 0⟩
    100000 (by decide) (by decide) (by decide) (by decide)]
  rfl

/-- C6, the claim as stated is false: on a hash the chain cannot locate the
detector returns no result and the handler fails with the internal failure
kind (HTTP 500, as the repository's own test asserts), not NotFound. -/
theorem C6_not_found_counterexample :
    process_transaction dbC4 "0xmiss" .sepolia none 0 =
      (dbC4, .internalError) ∧
    ProcessResult.internalError ≠ ProcessResult.notFoundErr := by
  decide

/-- C6 amended: on a hash with no existing marker whose detector lookup finds
nothing on chain, deposit processing fails with the internal failure kind,
writes no `ProcessedMarker`, and changes no balance or ledger row (the store
is returned untouched), so the caller may retry. -/
theorem C6_detector_none_internal (db : DB) (h : String) (net : NetworkType)
    (idn : Nat) (hnp : db.processed.any (fun m => m.hash == h) = false) :
    process_transaction db h net none idn = (db, .internalError) := by
  simp [process_transaction, hnp]

/-- Witness for the amended C6 at a concrete store and hash. -/
theorem C6_detector_none_internal_witness :
    process_transaction sys1.db "0xmiss" .sepolia none 3 =
      (sys1.db, .internalError) :=
  C6_detector_none_internal sys1.db "0xmiss" .sepolia 3 (by decide)

/-- A log entry that fails the topic-shape check or whose amount does not
decode contributes nothing to the ERC20 extraction loop. -/
lemma process_erc20_log_skip (u : String) (r : TransactionDetector.Erc20Acc)
    (bad : LogEntry)
    (hb : TransactionDetector.is_transfer_event bad = false ∨
      TransactionDetector.parse_transfer_event bad = none) :
    TransactionDetector.process_erc20_log u r bad = r := by
  cases hb with
  | inl hfalse => simp [TransactionDetector.process_erc20_log, hfalse]
  | inr hnone =>
    unfold TransactionDetector.process_erc20_log
    cases his : TransactionDetector.is_transfer_event bad
    · simp
    · simp [hnone]

/-- C9: a malformed log entry — wrong topic count (it fails
`_is_transfer_event`) or undecodable amount (`_parse_transfer_event` yields
nothing) — is skipped individually: extraction over any log list containing
it equals extraction over the same list without it, so it never aborts
detection, never produces a transfer, and every well-formed qualifying
transfer of the same transaction is still extracted. -/
theorem C9_malformed_log_skipped (u : String)
    (r : TransactionDetector.Erc20Acc) (l1 l2 : List LogEntry)
    (bad : LogEntry)
    (hb : TransactionDetector.is_transfer_event bad = false ∨
      TransactionDetector.parse_transfer_event bad = none) :
    TransactionDetector.process_erc20_transfers u (l1 ++ bad :: l2) r =
      TransactionDetector.process_erc20_transfers u (l1 ++ l2) r := by
  unfold TransactionDetector.process_erc20_transfers
  rw [List.foldl_append, List.foldl_append, List.foldl_cons,
    process_erc20_log_skip u _ bad hb]

/-- The configured USDC contract on sepolia. -/
def usdcSepolia : String := "0x1c7d4b196cb0c7b01d743fbc6116a902379c7238"

/-- A well-formed Transfer log from the USDC contract: the event signature,
two padded address topics, and a decodable amount. -/
def goodLog : LogEntry :=
  ⟨usdcSepolia,
   [TransactionDetector.TRANSFER_EVENT_SIG,
    "0x000000000000000000000000f39b278078f5488ca53b57eea65a9186d17e06e3",
    "0x0000000000000000000000004bb67806f3d073d5d57c2015401af5934db5a16c"],
   "0x0f4240"⟩

/-- A malformed Transfer log: only two topics. -/
def badLog : LogEntry :=
  ⟨usdcSepolia,
   [TransactionDetector.TRANSFER_EVENT_SIG,
    "0x000000000000000000000000f39b278078f5488ca53b57eea65a9186d17e06e3"],
   "0x0f4240"⟩

/-- Witness for C9: the malformed entry next to a well-formed one changes
nothing. -/
theorem C9_malformed_log_skipped_witness :
    TransactionDetector.process_erc20_transfers usdcSepolia [goodLog, badLog]
        ⟨[], []⟩ =
      TransactionDetector.process_erc20_transfers usdcSepolia [goodLog]
        ⟨[], []⟩ :=
  C9_malformed_log_skipped usdcSepolia ⟨[], []⟩ [goodLog] [] badLog
    (Or.inl (by decide))

/-- C10: a successful withdrawal submission writes a `ProcessedTransaction`
marker for the broadcast hash at submission time, so deposit processing on
that hash — whatever the detector would return — always fails with Conflict
and changes nothing, crediting no address. -/
theorem C10_withdraw_marker_blocks_deposit (s : Sys) (req : WithdrawReq)
    (net : NetworkType) (w : WalletEnv) (a : AddressRow) (bal : Int)
    (ha : s.db.addresses.find? (fun x => x.address == req.from_address) =
      some a)
    (h1 : 0 < req.amount)
    (hbal : get_balance s.db req.from_address net req.token.str = some bal)
    (h2 : req.amount ≤ bal) :
    (withdraw s req net w).2 =
      .ok (Wallet.transfer w net req.token req.to_address req.amount) ∧
    ((withdraw s req net w).1.db.processed.any
        (fun m => m.hash ==
          (Wallet.transfer w net req.token req.to_address req.amount).hash) =
      true) ∧
    ∀ (det : Option TransactionResult) (idn : Nat),
      process_transaction (withdraw s req net w).1.db
          (Wallet.transfer w net req.token req.to_address req.amount).hash net
          det idn =
        ((withdraw s req net w).1.db, .conflict) := by
  have hn : ¬ req.amount ≤ 0 := by omega
  have hn2 : ¬ bal < req.amount := by omega
  have hw : withdraw s req net w =
      ({ db :=
          { s.db with
            transactions := s.db.transactions ++
              [Wallet.transfer w net req.token req.to_address req.amount]
            processed := s.db.processed ++
              [⟨(Wallet.transfer w net req.token req.to_address
                  req.amount).hash,
                chainId net⟩] }
         workingSet := s.workingSet ++
          [(Wallet.transfer w net req.token req.to_address req.amount).id] },
       .ok (Wallet.transfer w net req.token req.to_address req.amount)) := by
    simp [withdraw, ha, hn, hbal, hn2]
  have hany : (withdraw s req net w).1.db.processed.any
      (fun m => m.hash ==
        (Wallet.transfer w net req.token req.to_address req.amount).hash) =
      true := by
    rw [hw]; simp
  exact ⟨by rw [hw], hany, fun det idn =>
    processed_hash_conflict (withdraw s req net w).1.db
      (Wallet.transfer w net req.token req.to_address req.amount).hash net det
      idn hany⟩

/-- Witness for C10: after the concrete withdrawal, deposit processing on the
broadcast hash is rejected with Conflict even with a detector result in
hand. -/
theorem C10_withdraw_marker_blocks_deposit_witness :
    (withdraw sys1 req1 .sepolia w1).2 =
      .ok (Wallet.transfer w1 .sepolia .ETH addrB 60) ∧
    process_transaction (withdraw sys1 req1 .sepolia w1).1.db
        (Wallet.transfer w1 .sepolia .ETH addrB 60).hash .sepolia
        (some detDepositA) 5 =
      ((withdraw sys1 req1 .sepolia w1).1.db, .conflict) := by
  have hc := C10_withdraw_marker_blocks_deposit sys1 req1 .sepolia w1
    ⟨addrA, 0⟩ 100000 (by decide) (by decide) (by decide) (by decide)
  exact ⟨hc.1, hc.2.2 (some detDepositA) 5⟩
